import Mathlib

/-!
Verification of the ISS spotter coordinator (`custom_components/iss_spotter`).

The astronomy library (skyfield) is treated as an external capability: its
observation functions (altitude/azimuth, Sun altitude, sunlit flag) are
parameters of the embedding.  Times are rationals (seconds on one timeline),
Python `int()` truncation and `//`-floor arithmetic are made explicit, Python
`None` returns are `Option.none`, and raised exceptions are `Except.error`.
-/

namespace IssSpotter

/-! ### Constants (`const.py`, `coordinator.py` module level) -/

def SUN_MAX_ELEVATION : ℚ := -6
def MAXIMUM_MINUTES : ℤ := 15
/-- `GRACE_PERIOD = timedelta(minutes=60)`, in seconds. -/
def GRACE_PERIOD : ℚ := 60 * 60
/-- `ASTRONAUT_UPDATE_INTERVAL = timedelta(minutes=30)`, in seconds. -/
def ASTRONAUT_UPDATE_INTERVAL : ℚ := 30 * 60
/-- The exact body name looked up in the parsed TLE set. -/
def issName : String := "ISS (ZARYA)"

/-! ### Python numeric helpers -/

/-- Python `int(x)`: truncation toward zero. -/
def pyInt (q : ℚ) : ℤ := if 0 ≤ q then ⌊q⌋ else ⌈q⌉

/-- Python `a % b` for `b > 0`: result carries the divisor's sign. -/
def pyMod (a b : ℚ) : ℚ := a - b * ⌊a / b⌋

/-- Python `range(0, n, 3)` as a list of indices. -/
def pyRange3 (n : ℕ) : List ℕ := List.range' 0 ((n + 2) / 3) 3

/-! ### Compass rose (`_get_skyfield_sightings`, lines 220-241) -/

/-- The ascending `(angle, name)` table built in the loop body. -/
def directions : List (ℚ × String) :=
  [(0, "N"), (22.5, "NNE"), (45, "NE"), (67.5, "ENE"), (90, "E"),
   (112.5, "ESE"), (135, "SE"), (157.5, "SSE"), (180, "S"), (202.5, "SSW"),
   (225, "SW"), (247.5, "WSW"), (270, "W"), (292.5, "WNW"), (315, "NW"),
   (337.5, "NNW"), (360, "N")]

/-- `next(name for angle, name in xs if az >= angle)`; `none` models the
`StopIteration` raised when no entry matches. -/
def firstGE (az : ℚ) : List (ℚ × String) → Option String
  | [] => none
  | (a, n) :: rest => if az ≥ a then some n else firstGE az rest

/-- `next(name for angle, name in reversed(directions) if az_rise >= angle)`. -/
def codeDirection (az : ℚ) : Option String := firstGE az directions.reverse

/-- The sixteen rose labels in bucket order (bucket `k` is
`[22.5*k, 22.5*(k+1))`). -/
def roseNames : List String :=
  ["N", "NNE", "NE", "ENE", "E", "ESE", "SE", "SSE",
   "S", "SSW", "SW", "WSW", "W", "WNW", "NW", "NNW"]

/-! ### Satellite lookup (`_load_satellite`, lines 307-320) -/

structure Satellite where
  name : String
deriving DecidableEq

/-- `by_name = {sat.name: sat for sat in satellites}; by_name.get("ISS (ZARYA)")`.
In a dict comprehension a later duplicate key overwrites an earlier one, so the
association lookup runs over the reversed list. -/
def loadSatelliteLookup (satellites : List Satellite) : Option Satellite :=
  (satellites.reverse.map (fun s => (s.name, s))).lookup issName

/-! ### The sighting pipeline (`_get_skyfield_sightings`, lines 153-280) -/

/-- The skyfield observation capability, abstracted: satellite
altitude/azimuth relative to the observer, Sun altitude at the observer, and
the satellite-sunlit flag, each as a function of time. -/
structure Astro where
  altAz : ℚ → ℚ × ℚ
  sunAlt : ℚ → ℚ
  sunlit : ℚ → Bool

structure Config where
  min_minutes : ℤ
deriving DecidableEq

/-- The dict appended to `sightings` (lines 249-258): rise time truncated to
the whole minute, the `"XmYs"` duration split, `int(max_elevation)`, and the
compass label. -/
structure Sighting where
  date : ℚ
  duration_min : ℤ
  duration_rem : ℤ
  max_elevation : ℤ
  appear : String
deriving DecidableEq

/-- One iteration of the pass loop (lines 181-258) given the rise, culminate
and set times.  `Except.error` is the `StopIteration` escaping from `next` when
the azimuth matches no table entry; `Except.ok none` is a pass that appends no
sighting. -/
def processPass (cfg : Config) (astro : Astro) (t_rise t_culminate t_set : ℚ) :
    Except Unit (Option Sighting) :=
  if astro.sunAlt t_culminate < SUN_MAX_ELEVATION ∧ astro.sunlit t_culminate = true then
    match codeDirection (astro.altAz t_rise).2 with
    | none => Except.error ()
    | some direction =>
      if ⌊(t_set - t_rise) / 60⌋ < cfg.min_minutes then Except.ok none
      else if ⌊(t_set - t_rise) / 60⌋ > MAXIMUM_MINUTES then Except.ok none
      else Except.ok (some
        { date := 60 * ⌊t_rise / 60⌋
          duration_min := ⌊(t_set - t_rise) / 60⌋
          duration_rem := pyInt (pyMod (t_set - t_rise) 60)
          max_elevation := pyInt (astro.altAz t_culminate).1
          appear := direction })
  else Except.ok none

/-- `for i in range(0, len(events), 3): t_rise = t[i]; t_culminate = t[i+1];
t_set = t[i+2]; ...` over the flat time array `t`.  An out-of-range access is
the `IndexError` raised by the real loop when the event count is not a
multiple of 3. -/
def runPasses (cfg : Config) (astro : Astro) (t : List ℚ) :
    List ℕ → Except Unit (List Sighting)
  | [] => Except.ok []
  | i :: rest =>
    match t[i]?, t[i + 1]?, t[i + 2]? with
    | some tr, some tc, some tsv =>
      match processPass cfg astro tr tc tsv with
      | Except.error e => Except.error e
      | Except.ok s? =>
        match runPasses cfg astro t rest with
        | Except.error e => Except.error e
        | Except.ok rest' => Except.ok (s?.toList ++ rest')
    | _, _, _ => Except.error ()

/-- The body of the `try` block: TLE load result (which may itself raise),
the satellite-not-found early `return []` (lines 160-162), then the pass
loop. -/
def sightingsBody (loadRes : Except Unit (Option Satellite)) (cfg : Config)
    (astro : Astro) (t : List ℚ) : Except Unit (List Sighting) :=
  match loadRes with
  | Except.error e => Except.error e
  | Except.ok none => Except.ok []
  | Except.ok (some _) => runPasses cfg astro t (pyRange3 t.length)

structure SightState where
  last_valid_sightings : Option (List Sighting)
  last_successful_sighting_time : Option ℚ
deriving DecidableEq

/-- Python truthiness of `self._last_valid_sightings` (`None` and `[]` are
falsy). -/
def truthyList : Option (List Sighting) → Bool
  | none => false
  | some l => !l.isEmpty

/-- `_get_skyfield_sightings` around its `try`/`except` (lines 155-280).  The
value part is `Option (List Sighting)`: `none` is the implicit Python `None`
returned when the `except` handler falls through its `if` ladder (cache
present but grace period exceeded).  A hard failure would be `Except.error`;
the blanket handler never re-raises. -/
def getSkyfieldSightings (loadRes : Except Unit (Option Satellite))
    (cfg : Config) (astro : Astro) (t : List ℚ) (st : SightState) (now : ℚ) :
    Except Unit (Option (List Sighting) × SightState) :=
  match sightingsBody loadRes cfg astro t with
  | Except.ok sightings =>
      if sightings.isEmpty then Except.ok (some sightings, st)
      else Except.ok (some sightings, ⟨some sightings, some now⟩)
  | Except.error _ =>
      if truthyList st.last_valid_sightings = true ∧
         st.last_successful_sighting_time ≠ none then
        if now - st.last_successful_sighting_time.getD 0 ≤ GRACE_PERIOD then
          Except.ok (some (st.last_valid_sightings.getD []), st)
        else
          Except.ok (none, st)
      else Except.ok (some [], st)

/-! ### Astronaut roster (`_get_astronaut_info`, lines 100-151) -/

structure AstroState where
  last_valid_astronaut_count : Option ℤ
  last_valid_astronaut_names : Option (List String)
  last_successful_astronaut_time : Option ℚ
deriving DecidableEq

/-- Python truthiness of the cached count (`None` and `0` are falsy). -/
def truthyCount : Option ℤ → Bool
  | none => false
  | some c => c != 0

/-- Python truthiness of the cached name list (`None` and `[]` are falsy). -/
def truthyNames : Option (List String) → Bool
  | none => false
  | some l => !l.isEmpty

/-- `_get_astronaut_info`: freshness short-circuit (`is not None` presence
checks), then the fetch; on fetch failure the fallback condition tests the
cached slots for truthiness.  `Except.error` is the raised `UpdateFailed`. -/
def getAstronautInfo (st : AstroState) (now : ℚ)
    (fetch : Except Unit (List String)) :
    Except Unit ((ℤ × List String) × AstroState) :=
  if st.last_valid_astronaut_count ≠ none ∧ st.last_valid_astronaut_names ≠ none ∧
     st.last_successful_astronaut_time ≠ none ∧
     now - st.last_successful_astronaut_time.getD 0 < ASTRONAUT_UPDATE_INTERVAL then
    Except.ok ((st.last_valid_astronaut_count.getD 0,
                st.last_valid_astronaut_names.getD []), st)
  else
    match fetch with
    | Except.ok names =>
        Except.ok (((names.length : ℤ), names),
                   ⟨some (names.length : ℤ), some names, some now⟩)
    | Except.error _ =>
        if truthyCount st.last_valid_astronaut_count = true ∧
           truthyNames st.last_valid_astronaut_names = true ∧
           st.last_successful_astronaut_time ≠ none then
          if now - st.last_successful_astronaut_time.getD 0 ≤ GRACE_PERIOD then
            Except.ok ((st.last_valid_astronaut_count.getD 0,
                        st.last_valid_astronaut_names.getD []), st)
          else Except.error ()
        else Except.error ()

/-! ### Cycle assembly (`_async_update_data`, lines 67-98) -/

inductive PyErr where
  | updateFailed
  | typeError
deriving DecidableEq

structure Position where
  latitude : ℚ
  longitude : ℚ
  elevation : ℚ
deriving DecidableEq

structure Snapshot where
  latitude : ℚ
  longitude : ℚ
  elevation : ℚ
  all_sightings : Option (List Sighting)
  astronaut_count : ℤ
  astronaut_names : List String
  next_sighting : Option Sighting
deriving DecidableEq

/-- `_async_update_data` given the three gathered results.  An astronaut
failure is the `UpdateFailed` caught and re-raised as `UpdateFailed`; a `None`
position makes `position["latitude"]` raise `TypeError`, which is *not* in the
caught exception tuple and so escapes uncaught.  `sightings` may be the Python
`None` returned by the sightings pipeline; `if sightings:` treats `None` and
`[]` alike. -/
def asyncUpdateData (astronautRes : Except Unit (ℤ × List String))
    (sightingsRes : Option (List Sighting)) (positionRes : Option Position) :
    Except PyErr Snapshot :=
  match astronautRes with
  | Except.error _ => Except.error PyErr.updateFailed
  | Except.ok (cnt, names) =>
    match positionRes with
    | none => Except.error PyErr.typeError
    | some p =>
      Except.ok
        { latitude := p.latitude
          longitude := p.longitude
          elevation := p.elevation
          all_sightings := sightingsRes
          astronaut_count := cnt
          astronaut_names := names
          next_sighting :=
            match sightingsRes with
            | some (s :: _) => some s
            | _ => none }

/-! ### The spec's Visibility Refiner, for refinement comparison -/

/-- Modelled from the spec: "build an inclusive time sequence from
`event.riseTime` to `event.setTime` at `stepSeconds` spacing, appending the
exact set time if not aligned to the step".  This algorithm appears nowhere in
`coordinator.py`; it is written from the spec's words to compare against the
code's per-pass logic. -/
def specSampleTimes (rise setT step : ℚ) : List ℚ :=
  let n : ℕ := (⌊(setT - rise) / step⌋).toNat
  let base := (List.range (n + 1)).map (fun k => rise + (k : ℚ) * step)
  if rise + (n : ℚ) * step = setT then base else base ++ [setT]

/-- Modelled from the spec: a sample is visible iff `illuminated == true AND
sunAltitude < darknessThresholdDeg` (strict). -/
def specVisible (astro : Astro) (threshold τ : ℚ) : Bool :=
  astro.sunlit τ && decide (astro.sunAlt τ < threshold)

/-- Modelled from the spec: the refined window
`(firstVisibleIndex, lastVisibleIndex, peakIndex)` over the sample sequence,
`none` when no sample is visible. -/
def specRefine (astro : Astro) (rise setT step threshold : ℚ) :
    Option (ℕ × ℕ × ℕ) :=
  let times := specSampleTimes rise setT step
  let visIdx := (List.range times.length).filter
      (fun k => specVisible astro threshold (times.getD k 0))
  match visIdx with
  | [] => none
  | k :: rest =>
      let lastV := (k :: rest).getLast (List.cons_ne_nil k rest)
      let peak := (k :: rest).foldl
        (fun best j =>
          if (astro.altAz (times.getD j 0)).1 > (astro.altAz (times.getD best 0)).1
          then j else best) k
      some (k, lastV, peak)

/-! ### Concrete instances used by counterexamples and witnesses -/

/-- Configuration with the default minimum of 2 minutes. -/
def cfg4 : Config := ⟨2⟩

/-- An always-visible sky: satellite at altitude 30° / azimuth 100°, Sun at
-10°, satellite always sunlit. -/
def astro4 : Astro := ⟨fun _ => (30, 100), fun _ => -10, fun _ => true⟩

/-- A sky in which the satellite is sunlit only at time 0. -/
def astroEx1 : Astro :=
  ⟨fun _ => (30, 100), fun _ => -10, fun τ => decide (τ = 0)⟩

/-- The sighting produced by `astro4` for the pass (0, 60, 125). -/
def s4 : Sighting := ⟨0, 2, 5, 30, "E"⟩

/-- A cached sighting used as grace-period fallback content. -/
def sEx : Sighting := ⟨0, 2, 0, 30, "N"⟩

/-- Five event times: one complete pass then a truncated trailing one. -/
def t4 : List ℚ := [0, 60, 125, 500, 560]

def sat4 : Satellite := ⟨issName⟩

def satOther : Satellite := ⟨"CSS (TIANHE)"⟩

/-! ### Theorems -/

/-- Evaluation of the spec's sample sequence on the counterexample pass. -/
theorem sampleTimesEx : specSampleTimes 0 60 30 = [0, 30, 60] := by
  norm_num [specSampleTimes, show ((2 : ℤ)).toNat = 2 from rfl, List.range_succ,
    List.range_zero]

/-- C1 (counterexample).  For the pass (rise 0, culminate 30, set 60) under a
sky where the satellite is sunlit only at the rise instant, the spec's
refinement (step 30 s) finds a visible sample and returns the window
`[0, 0]` with peak 0, yet the code emits nothing for the pass: the code does
not perform the claimed per-sample refinement. -/
theorem c1_counterexample :
    processPass cfg4 astroEx1 0 30 60 = Except.ok none ∧
    specRefine astroEx1 0 60 30 SUN_MAX_ELEVATION = some (0, 0, 0) := by
  constructor
  · norm_num [processPass, astroEx1, SUN_MAX_ELEVATION]
  · simp only [specRefine, sampleTimesEx]
    norm_num [specVisible, astroEx1, SUN_MAX_ELEVATION, List.range_succ,
      List.range_zero, List.filter, List.getLast, List.foldl]

/-- C2 (counterexample).  Pipeline failure 61 minutes (3660 s) after the last
success with a non-empty cached list: the function returns the Python `None`
value (`Except.ok (none, ·)`), not a hard failure (`Except.error`). -/
theorem c2_counterexample :
    getSkyfieldSightings (Except.error ()) cfg4 astro4 [] ⟨some [sEx], some 0⟩ 3660 =
      Except.ok (none, ⟨some [sEx], some 0⟩) := by
  simp only [getSkyfieldSightings, sightingsBody]
  rw [if_pos ?hc]
  case hc => exact ⟨by simp [truthyList], by simp⟩
  rw [if_neg ?hg]
  case hg => norm_num [GRACE_PERIOD]

/-- C3 (code bug).  When the position snapshot is unavailable (`None`), the
cycle assembly subscripts `None` and raises `TypeError`, which is not in the
caught exception tuple: the whole update fails instead of degrading. -/
theorem c3_position_none_crashes_cycle :
    asyncUpdateData (Except.ok (3, [])) (some []) none =
      Except.error PyErr.typeError := rfl

/-- On the qualifying pass `(0, 60, 125)` the rise azimuth 100° maps to "E". -/
theorem dirE : codeDirection 100 = some "E" := by
  norm_num [codeDirection, directions, firstGE]

/-- The complete first pass of `t4` yields the sighting `s4`. -/
theorem ppEval : processPass cfg4 astro4 0 60 125 = Except.ok (some s4) := by
  norm_num [processPass, astro4, cfg4, s4, SUN_MAX_ELEVATION, MAXIMUM_MINUTES,
    dirE, pyInt, pyMod, Sighting.mk.injEq]

/-- `range(0, 5, 3)` is `[0, 3]`. -/
theorem rangeEval : pyRange3 5 = [0, 3] := by
  norm_num [pyRange3, List.range']

/-- C4 (code bug, evaluated at the failing input).  With 5 events — one
complete, fully qualifying pass `(0, 60, 125)` followed by a truncated
trailing pass — the loop hits an out-of-range access (`IndexError`), the
blanket handler fires, and with no cache the cycle reports no sightings at
all: the complete pass is lost along with the truncated one. -/
theorem c4_truncated_events_crash :
    processPass cfg4 astro4 0 60 125 = Except.ok (some s4) ∧
    runPasses cfg4 astro4 t4 (pyRange3 5) = Except.error () ∧
    getSkyfieldSightings (Except.ok (some sat4)) cfg4 astro4 t4 ⟨none, none⟩ 0 =
      Except.ok (some [], ⟨none, none⟩) := by
  have hrp : runPasses cfg4 astro4 t4 [0, 3] = Except.error () := by
    simp only [runPasses, t4]
    norm_num [ppEval]
  refine ⟨ppEval, by rw [rangeEval]; exact hrp, ?_⟩
  have hlen : t4.length = 5 := by simp [t4]
  simp only [getSkyfieldSightings, sightingsBody, hlen, rangeEval, hrp]
  norm_num [truthyList]

/-- C5 (counterexample).  Azimuth 44.9° maps to "NNE", not "NE" as the claim's
example states, and 359.99° maps to "NNW", not "N". -/
theorem c5_counterexample :
    codeDirection (449 / 10) = some "NNE" ∧ ("NNE" : String) ≠ "NE" ∧
    codeDirection (35999 / 100) = some "NNW" ∧ ("NNW" : String) ≠ "N" := by
  refine ⟨?_, by decide, ?_, by decide⟩ <;>
    norm_num [codeDirection, directions, firstGE]

/-- C7 (counterexample).  With a parsed element set that contains no entry
named "ISS (ZARYA)", the lookup returns the absent value `none` (no
`NotFoundError`), and the sightings cycle succeeds with the empty list. -/
theorem c7_counterexample :
    loadSatelliteLookup [satOther] = none ∧
    getSkyfieldSightings (Except.ok (loadSatelliteLookup [satOther])) cfg4 astro4
        [] ⟨none, none⟩ 0 = Except.ok (some [], ⟨none, none⟩) := by
  have hl : loadSatelliteLookup [satOther] = none := by
    simp [loadSatelliteLookup, satOther, issName, List.lookup]
  refine ⟨hl, ?_⟩
  simp [getSkyfieldSightings, sightingsBody, hl]

/-- `int(duration_sec % 60)` is the floored total minus the whole minutes. -/
lemma pyMod_floor (d : ℚ) : pyInt (pyMod d 60) = ⌊d⌋ - 60 * ⌊d / 60⌋ := by
  have hle : (⌊d / 60⌋ : ℚ) ≤ d / 60 := Int.floor_le (d / 60)
  have h0 : (60 : ℚ) * (⌊d / 60⌋ : ℚ) ≤ d := by linarith
  unfold pyInt pyMod
  rw [if_pos (by linarith)]
  have hc : d - 60 * ((⌊d / 60⌋ : ℤ) : ℚ) = d - ((60 * ⌊d / 60⌋ : ℤ) : ℚ) := by
    push_cast
    ring
  rw [hc, Int.floor_sub_int]

/-- C6 (confirmed).  Every emitted sighting's minute/second split represents
exactly `setTime − riseTime` (to the floored second), and its duration is at
least `minDurationMinutes*60` seconds; every shorter pass yields no
sighting. -/
theorem c6_duration_filter (cfg : Config) (astro : Astro) (tr tc ts : ℚ) :
    (∀ s : Sighting, processPass cfg astro tr tc ts = Except.ok (some s) →
        60 * s.duration_min + s.duration_rem = ⌊ts - tr⌋ ∧
        (cfg.min_minutes : ℚ) * 60 ≤ ts - tr) ∧
    (ts - tr < (cfg.min_minutes : ℚ) * 60 →
        ∀ s : Sighting, processPass cfg astro tr tc ts ≠ Except.ok (some s)) := by
  constructor
  · intro s hs
    cases hD : codeDirection (astro.altAz tr).2 with
    | none =>
        simp only [processPass, hD] at hs
        split at hs <;> simp at hs
    | some dir =>
        simp only [processPass, hD] at hs
        split at hs
        case isFalse => simp at hs
        case isTrue hvis =>
          split at hs
          case isTrue => simp at hs
          case isFalse hmin =>
            split at hs
            case isTrue => simp at hs
            case isFalse hmax =>
              rw [Except.ok.injEq, Option.some.injEq] at hs
              subst hs
              have h1 : (cfg.min_minutes : ℚ) ≤ (ts - tr) / 60 := by
                exact_mod_cast Int.le_floor.mp (not_lt.mp hmin)
              refine ⟨?_, by linarith⟩
              dsimp only
              rw [pyMod_floor]
              ring
  · intro hlt s hs
    have hfl : ⌊(ts - tr) / 60⌋ < cfg.min_minutes := by
      rw [Int.floor_lt]
      linarith
    cases hD : codeDirection (astro.altAz tr).2 with
    | none =>
        simp only [processPass, hD] at hs
        split at hs <;> simp at hs
    | some dir =>
        simp only [processPass, hD] at hs
        by_cases hvis : astro.sunAlt tc < SUN_MAX_ELEVATION ∧ astro.sunlit tc = true
        · rw [if_pos hvis, if_pos hfl] at hs
          simp at hs
        · rw [if_neg hvis] at hs
          simp at hs

/-- Witness for C6 on the concrete pass (0, 60, 125): duration 2m5s. -/
theorem c6_witness :
    processPass cfg4 astro4 0 60 125 = Except.ok (some s4) ∧
    60 * s4.duration_min + s4.duration_rem = ⌊(125 : ℚ) - 0⌋ ∧
    (cfg4.min_minutes : ℚ) * 60 ≤ 125 - 0 :=
  ⟨ppEval, (c6_duration_filter cfg4 astro4 0 60 125).1 s4 ppEval⟩

/-- C8 (confirmed).  Every emitted sighting's whole-minute duration is at most
`MAXIMUM_MINUTES` (15), so the pass lasts under 16 minutes; any pass whose
whole-minute duration exceeds 15 is dropped. -/
theorem c8_max_duration (cfg : Config) (astro : Astro) (tr tc ts : ℚ) :
    (∀ s : Sighting, processPass cfg astro tr tc ts = Except.ok (some s) →
        s.duration_min ≤ MAXIMUM_MINUTES ∧ ts - tr < 16 * 60) ∧
    (MAXIMUM_MINUTES < ⌊(ts - tr) / 60⌋ →
        ∀ s : Sighting, processPass cfg astro tr tc ts ≠ Except.ok (some s)) := by
  constructor
  · intro s hs
    cases hD : codeDirection (astro.altAz tr).2 with
    | none =>
        simp only [processPass, hD] at hs
        split at hs <;> simp at hs
    | some dir =>
        simp only [processPass, hD] at hs
        split at hs
        case isFalse => simp at hs
        case isTrue hvis =>
          split at hs
          case isTrue => simp at hs
          case isFalse hmin =>
            split at hs
            case isTrue => simp at hs
            case isFalse hmax =>
              rw [Except.ok.injEq, Option.some.injEq] at hs
              subst hs
              have hle : ⌊(ts - tr) / 60⌋ ≤ MAXIMUM_MINUTES := not_lt.mp hmax
              refine ⟨hle, ?_⟩
              have h1 : (ts - tr) / 60 < (⌊(ts - tr) / 60⌋ : ℚ) + 1 :=
                Int.lt_floor_add_one ((ts - tr) / 60)
              have h2 : ((⌊(ts - tr) / 60⌋ : ℤ) : ℚ) ≤ (15 : ℚ) := by
                exact_mod_cast hle
              linarith
  · intro hgt s hs
    cases hD : codeDirection (astro.altAz tr).2 with
    | none =>
        simp only [processPass, hD] at hs
        split at hs <;> simp at hs
    | some dir =>
        simp only [processPass, hD] at hs
        by_cases hvis : astro.sunAlt tc < SUN_MAX_ELEVATION ∧ astro.sunlit tc = true
        · rw [if_pos hvis] at hs
          by_cases hmin : ⌊(ts - tr) / 60⌋ < cfg.min_minutes
          · rw [if_pos hmin] at hs
            simp at hs
          · rw [if_neg hmin, if_pos hgt] at hs
            simp at hs
        · rw [if_neg hvis] at hs
          simp at hs

/-- The sighting produced by `astro4` for the 5-minute pass (0, 60, 300). -/
def s8 : Sighting := ⟨0, 5, 0, 30, "E"⟩

/-- The 5-minute pass evaluates to `s8`. -/
theorem ppEval8 : processPass cfg4 astro4 0 60 300 = Except.ok (some s8) := by
  norm_num [processPass, astro4, cfg4, s8, SUN_MAX_ELEVATION, MAXIMUM_MINUTES,
    dirE, pyInt, pyMod, Sighting.mk.injEq]

/-- Witness for C8 on the concrete pass (0, 60, 300): 5 whole minutes ≤ 15. -/
theorem c8_witness :
    processPass cfg4 astro4 0 60 300 = Except.ok (some s8) ∧
    s8.duration_min ≤ MAXIMUM_MINUTES ∧ (300 : ℚ) - 0 < 16 * 60 :=
  ⟨ppEval8, (c8_max_duration cfg4 astro4 0 60 300).1 s8 ppEval8⟩

/-- C2 (amended).  When the computation raises and the cached list is truthy
with a recorded success time: within the 60-minute grace period the cached
list is returned unchanged; beyond it the function returns the Python `None`
(the exception is swallowed), not a hard failure. -/
theorem c2_amended (loadRes : Except Unit (Option Satellite)) (cfg : Config)
    (astro : Astro) (t : List ℚ) (st : SightState) (now : ℚ)
    (hbody : sightingsBody loadRes cfg astro t = Except.error ())
    (hcache : truthyList st.last_valid_sightings = true)
    (htime : st.last_successful_sighting_time ≠ none) :
    (now - st.last_successful_sighting_time.getD 0 ≤ GRACE_PERIOD →
      getSkyfieldSightings loadRes cfg astro t st now =
        Except.ok (some (st.last_valid_sightings.getD []), st)) ∧
    (GRACE_PERIOD < now - st.last_successful_sighting_time.getD 0 →
      getSkyfieldSightings loadRes cfg astro t st now = Except.ok (none, st)) := by
  simp only [getSkyfieldSightings, hbody]
  constructor
  · intro h
    rw [if_pos ⟨hcache, htime⟩, if_pos h]
  · intro h
    rw [if_pos ⟨hcache, htime⟩, if_neg (not_le.mpr h)]

/-- Witness for C2's amended theorem: a failure 30 minutes after the last
success returns the cached list unchanged. -/
theorem c2_witness :
    sightingsBody (Except.error ()) cfg4 astro4 [] = Except.error () ∧
    truthyList (some [sEx]) = true ∧
    getSkyfieldSightings (Except.error ()) cfg4 astro4 [] ⟨some [sEx], some 0⟩ 1800 =
      Except.ok (some [sEx], ⟨some [sEx], some 0⟩) := by
  refine ⟨rfl, by simp [truthyList], ?_⟩
  have h := (c2_amended (Except.error ()) cfg4 astro4 [] ⟨some [sEx], some 0⟩ 1800
      rfl (by simp [truthyList]) (by simp)).1 (by norm_num [GRACE_PERIOD])
  simpa using h

/-- C9 (confirmed).  With a cached roster count of 0 the fallback condition
tests truthiness, so a fetch failure surfaces as `UpdateFailed` even inside
the grace period. -/
theorem c9_zero_roster_no_fallback (st : AstroState) (now t0 : ℚ)
    (hcount : st.last_valid_astronaut_count = some 0)
    (htime : st.last_successful_astronaut_time = some t0)
    (hnotfresh : ¬ now - t0 < ASTRONAUT_UPDATE_INTERVAL)
    (hgrace : now - t0 ≤ GRACE_PERIOD) :
    getAstronautInfo st now (Except.error ()) = Except.error () := by
  unfold getAstronautInfo
  rw [if_neg, ]
  · rw [if_neg]
    intro hcon
    rw [hcount] at hcon
    exact absurd hcon.1 (by simp [truthyCount])
  · intro hcon
    rw [htime] at hcon
    exact hnotfresh (by simpa using hcon.2.2.2)

/-- Witness for C9: cached count 0, failure 30 minutes after the last success
(well inside the 60-minute grace) still errors. -/
theorem c9_witness :
    getAstronautInfo ⟨some 0, some [], some 0⟩ 1800 (Except.error ()) =
      Except.error () :=
  c9_zero_roster_no_fallback ⟨some 0, some [], some 0⟩ 1800 0 rfl rfl
    (by norm_num [ASTRONAUT_UPDATE_INTERVAL]) (by norm_num [GRACE_PERIOD])

/-- C10 (confirmed).  When the computation raises and no previously valid
sighting list exists, the pipeline returns the empty list — a successful
cycle with zero sightings, not a raised failure. -/
theorem c10_no_cache_empty_list (loadRes : Except Unit (Option Satellite))
    (cfg : Config) (astro : Astro) (t : List ℚ) (st : SightState) (now : ℚ)
    (hbody : sightingsBody loadRes cfg astro t = Except.error ())
    (hnone : st.last_valid_sightings = none) :
    getSkyfieldSightings loadRes cfg astro t st now = Except.ok (some [], st) := by
  simp only [getSkyfieldSightings, hbody]
  rw [if_neg]
  intro hcon
  rw [hnone] at hcon
  exact absurd hcon.1 (by simp [truthyList])

/-- Witness for C10 at a concrete failing cycle with an empty cache. -/
theorem c10_witness :
    getSkyfieldSightings (Except.error ()) cfg4 astro4 [] ⟨none, none⟩ 5 =
      Except.ok (some [], ⟨none, none⟩) :=
  c10_no_cache_empty_list (Except.error ()) cfg4 astro4 [] ⟨none, none⟩ 5 rfl rfl

/-- Association-list lookup misses every key that no pair carries. -/
lemma assocLookupNone (key : String) :
    ∀ l : List (String × Satellite), (∀ p ∈ l, p.1 ≠ key) → l.lookup key = none := by
  intro l
  induction l with
  | nil => intro _; rfl
  | cons p rest ih =>
      intro h
      have hp : p.1 ≠ key := h p (List.mem_cons_self p rest)
      obtain ⟨k, v⟩ := p
      simp only [List.lookup, beq_eq_false_iff_ne.mpr (Ne.symm hp)]
      exact ih fun q hq => h q (List.mem_cons_of_mem _ hq)

/-- C7 (amended).  When no parsed entry bears the configured body name, the
lookup returns the absent value `none` — no error of any kind — and the
sightings cycle then succeeds with the empty list. -/
theorem c7_amended (sats : List Satellite)
    (h : ∀ s ∈ sats, s.name ≠ issName) :
    loadSatelliteLookup sats = none ∧
    ∀ (cfg : Config) (astro : Astro) (t : List ℚ) (st : SightState) (now : ℚ),
      getSkyfieldSightings (Except.ok (loadSatelliteLookup sats)) cfg astro t st now =
        Except.ok (some [], st) := by
  have hl : loadSatelliteLookup sats = none := by
    apply assocLookupNone
    intro p hp
    simp only [List.mem_map, List.mem_reverse] at hp
    obtain ⟨s, hs, rfl⟩ := hp
    exact h s hs
  refine ⟨hl, ?_⟩
  intro cfg astro t st now
  simp [getSkyfieldSightings, sightingsBody, hl]

/-- C1 (amended).  The code does not sample the pass: it applies the spec's
visibility predicate at the culmination instant only.  A pass yields a
sighting iff the culmination sample is visible and the whole-minute duration
filters pass; the emitted record always spans the full `[rise, set]` window
(date from the rise time, duration from `set − rise`) with the peak taken at
culmination. -/
theorem c1_culmination_only (cfg : Config) (astro : Astro) (tr tc ts : ℚ)
    (hdir : codeDirection (astro.altAz tr).2 ≠ none) :
    ((∃ s : Sighting, processPass cfg astro tr tc ts = Except.ok (some s)) ↔
      (specVisible astro SUN_MAX_ELEVATION tc = true ∧
        cfg.min_minutes ≤ ⌊(ts - tr) / 60⌋ ∧ ⌊(ts - tr) / 60⌋ ≤ MAXIMUM_MINUTES)) ∧
    (∀ s : Sighting, processPass cfg astro tr tc ts = Except.ok (some s) →
        s.date = 60 * ⌊tr / 60⌋ ∧ s.duration_min = ⌊(ts - tr) / 60⌋ ∧
        s.max_elevation = pyInt (astro.altAz tc).1) := by
  obtain ⟨dir, hD⟩ := Option.ne_none_iff_exists'.mp hdir
  have hvisb : specVisible astro SUN_MAX_ELEVATION tc = true ↔
      (astro.sunAlt tc < SUN_MAX_ELEVATION ∧ astro.sunlit tc = true) := by
    simp only [specVisible, Bool.and_eq_true, decide_eq_true_eq]
    tauto
  constructor
  · constructor
    · rintro ⟨s, hs⟩
      simp only [processPass, hD] at hs
      split at hs
      case isFalse => simp at hs
      case isTrue hvis =>
        split at hs
        case isTrue => simp at hs
        case isFalse hmin =>
          split at hs
          case isTrue => simp at hs
          case isFalse hmax =>
            exact ⟨hvisb.mpr hvis, not_lt.mp hmin, not_lt.mp hmax⟩
    · rintro ⟨hvis, hmin, hmax⟩
      refine ⟨{ date := 60 * ⌊tr / 60⌋
                duration_min := ⌊(ts - tr) / 60⌋
                duration_rem := pyInt (pyMod (ts - tr) 60)
                max_elevation := pyInt (astro.altAz tc).1
                appear := dir }, ?_⟩
      simp only [processPass, hD]
      rw [if_pos (hvisb.mp hvis), if_neg (not_lt.mpr hmin), if_neg (not_lt.mpr hmax)]
  · intro s hs
    simp only [processPass, hD] at hs
    split at hs
    case isFalse => simp at hs
    case isTrue hvis =>
      split at hs
      case isTrue => simp at hs
      case isFalse hmin =>
        split at hs
        case isTrue => simp at hs
        case isFalse hmax =>
          rw [Except.ok.injEq, Option.some.injEq] at hs
          subst hs
          exact ⟨rfl, rfl, rfl⟩

/-- Witness for C1's amended theorem on the qualifying pass (0, 60, 125). -/
theorem c1_witness :
    codeDirection ((astro4.altAz 0).2) ≠ none ∧
    (∃ s : Sighting, processPass cfg4 astro4 0 60 125 = Except.ok (some s)) := by
  have hd : codeDirection ((astro4.altAz 0).2) ≠ none := by
    have h100 : (astro4.altAz 0).2 = 100 := rfl
    rw [h100, dirE]
    simp
  refine ⟨hd, (c1_culmination_only cfg4 astro4 0 60 125 hd).1.mpr ?_⟩
  refine ⟨by norm_num [specVisible, astro4, SUN_MAX_ELEVATION], ?_, ?_⟩ <;>
    norm_num [cfg4, MAXIMUM_MINUTES]

/-- Witness for C7's amended theorem at a one-entry element set. -/
theorem c7_witness :
    (∀ s ∈ [satOther], s.name ≠ issName) ∧ loadSatelliteLookup [satOther] = none := by
  have h : ∀ s ∈ [satOther], s.name ≠ issName := by
    intro s hs
    rw [List.mem_singleton] at hs
    subst hs
    simp [satOther, issName]
  exact ⟨h, (c7_amended [satOther] h).1⟩

/-- `firstGE` skips an entry whose angle exceeds the azimuth. -/
lemma firstGE_cons_lt {az a : ℚ} {n : String} {l : List (ℚ × String)} (h : az < a) :
    firstGE az ((a, n) :: l) = firstGE az l := by
  simp [firstGE, not_le.mpr h]

/-- `firstGE` stops at the first entry whose angle is at most the azimuth. -/
lemma firstGE_cons_ge {az a : ℚ} {n : String} {l : List (ℚ × String)} (h : a ≤ az) :
    firstGE az ((a, n) :: l) = some n := by
  simp [firstGE, h]

/-- `reversed(directions)` as an explicit descending table. -/
lemma dirRev : directions.reverse =
    [(360, "N"), (337.5, "NNW"), (315, "NW"), (292.5, "WNW"), (270, "W"),
     (247.5, "WSW"), (225, "SW"), (202.5, "SSW"), (180, "S"), (157.5, "SSE"),
     (135, "SE"), (112.5, "ESE"), (90, "E"), (67.5, "ENE"), (45, "NE"),
     (22.5, "NNE"), (0, "N")] := rfl

/-- C5 (amended).  The compass assignment follows the 16-point rose with
half-open upper-bound buckets `[22.5k, 22.5(k+1)) -> roseNames[k]` — so
0°→"N", 180°→"S", but 44.9°→"NNE" and 359.99°→"NNW" — and an azimuth of
exactly 360° wraps to "N". -/
theorem c5_amended (az : ℚ) :
    (∀ k : ℕ, k < 16 → 45 / 2 * (k : ℚ) ≤ az → az < 45 / 2 * ((k : ℚ) + 1) →
        codeDirection az = some (roseNames.getD k "N")) ∧
    (360 ≤ az → codeDirection az = some "N") := by
  constructor
  · intro k hk h1 h2
    unfold codeDirection
    rw [dirRev]
    interval_cases k
    · norm_num at h1 h2
      rw [firstGE_cons_lt (by linarith),
        firstGE_cons_lt (by linarith),
        firstGE_cons_lt (by linarith),
        firstGE_cons_lt (by linarith),
        firstGE_cons_lt (by linarith),
        firstGE_cons_lt (by linarith),
        firstGE_cons_lt (by linarith),
        firstGE_cons_lt (by linarith),
        firstGE_cons_lt (by linarith),
        firstGE_cons_lt (by linarith),
        firstGE_cons_lt (by linarith),
        firstGE_cons_lt (by linarith),
        firstGE_cons_lt (by linarith),
        firstGE_cons_lt (by linarith),
        firstGE_cons_lt (by linarith),
        firstGE_cons_lt (by linarith),
        firstGE_cons_ge (by linarith)]
      rfl
    · norm_num at h1 h2
      rw [firstGE_cons_lt (by linarith),
        firstGE_cons_lt (by linarith),
        firstGE_cons_lt (by linarith),
        firstGE_cons_lt (by linarith),
        firstGE_cons_lt (by linarith),
        firstGE_cons_lt (by linarith),
        firstGE_cons_lt (by linarith),
        firstGE_cons_lt (by linarith),
        firstGE_cons_lt (by linarith),
        firstGE_cons_lt (by linarith),
        firstGE_cons_lt (by linarith),
        firstGE_cons_lt (by linarith),
        firstGE_cons_lt (by linarith),
        firstGE_cons_lt (by linarith),
        firstGE_cons_lt (by linarith),
        firstGE_cons_ge (by linarith)]
      rfl
    · norm_num at h1 h2
      rw [firstGE_cons_lt (by linarith),
        firstGE_cons_lt (by linarith),
        firstGE_cons_lt (by linarith),
        firstGE_cons_lt (by linarith),
        firstGE_cons_lt (by linarith),
        firstGE_cons_lt (by linarith),
        firstGE_cons_lt (by linarith),
        firstGE_cons_lt (by linarith),
        firstGE_cons_lt (by linarith),
        firstGE_cons_lt (by linarith),
        firstGE_cons_lt (by linarith),
        firstGE_cons_lt (by linarith),
        firstGE_cons_lt (by linarith),
        firstGE_cons_lt (by linarith),
        firstGE_cons_ge (by linarith)]
      rfl
    · norm_num at h1 h2
      rw [firstGE_cons_lt (by linarith),
        firstGE_cons_lt (by linarith),
        firstGE_cons_lt (by linarith),
        firstGE_cons_lt (by linarith),
        firstGE_cons_lt (by linarith),
        firstGE_cons_lt (by linarith),
        firstGE_cons_lt (by linarith),
        firstGE_cons_lt (by linarith),
        firstGE_cons_lt (by linarith),
        firstGE_cons_lt (by linarith),
        firstGE_cons_lt (by linarith),
        firstGE_cons_lt (by linarith),
        firstGE_cons_lt (by linarith),
        firstGE_cons_ge (by linarith)]
      rfl
    · norm_num at h1 h2
      rw [firstGE_cons_lt (by linarith),
        firstGE_cons_lt (by linarith),
        firstGE_cons_lt (by linarith),
        firstGE_cons_lt (by linarith),
        firstGE_cons_lt (by linarith),
        firstGE_cons_lt (by linarith),
        firstGE_cons_lt (by linarith),
        firstGE_cons_lt (by linarith),
        firstGE_cons_lt (by linarith),
        firstGE_cons_lt (by linarith),
        firstGE_cons_lt (by linarith),
        firstGE_cons_lt (by linarith),
        firstGE_cons_ge (by linarith)]
      rfl
    · norm_num at h1 h2
      rw [firstGE_cons_lt (by linarith),
        firstGE_cons_lt (by linarith),
        firstGE_cons_lt (by linarith),
        firstGE_cons_lt (by linarith),
        firstGE_cons_lt (by linarith),
        firstGE_cons_lt (by linarith),
        firstGE_cons_lt (by linarith),
        firstGE_cons_lt (by linarith),
        firstGE_cons_lt (by linarith),
        firstGE_cons_lt (by linarith),
        firstGE_cons_lt (by linarith),
        firstGE_cons_ge (by linarith)]
      rfl
    · norm_num at h1 h2
      rw [firstGE_cons_lt (by linarith),
        firstGE_cons_lt (by linarith),
        firstGE_cons_lt (by linarith),
        firstGE_cons_lt (by linarith),
        firstGE_cons_lt (by linarith),
        firstGE_cons_lt (by linarith),
        firstGE_cons_lt (by linarith),
        firstGE_cons_lt (by linarith),
        firstGE_cons_lt (by linarith),
        firstGE_cons_lt (by linarith),
        firstGE_cons_ge (by linarith)]
      rfl
    · norm_num at h1 h2
      rw [firstGE_cons_lt (by linarith),
        firstGE_cons_lt (by linarith),
        firstGE_cons_lt (by linarith),
        firstGE_cons_lt (by linarith),
        firstGE_cons_lt (by linarith),
        firstGE_cons_lt (by linarith),
        firstGE_cons_lt (by linarith),
        firstGE_cons_lt (by linarith),
        firstGE_cons_lt (by linarith),
        firstGE_cons_ge (by linarith)]
      rfl
    · norm_num at h1 h2
      rw [firstGE_cons_lt (by linarith),
        firstGE_cons_lt (by linarith),
        firstGE_cons_lt (by linarith),
        firstGE_cons_lt (by linarith),
        firstGE_cons_lt (by linarith),
        firstGE_cons_lt (by linarith),
        firstGE_cons_lt (by linarith),
        firstGE_cons_lt (by linarith),
        firstGE_cons_ge (by linarith)]
      rfl
    · norm_num at h1 h2
      rw [firstGE_cons_lt (by linarith),
        firstGE_cons_lt (by linarith),
        firstGE_cons_lt (by linarith),
        firstGE_cons_lt (by linarith),
        firstGE_cons_lt (by linarith),
        firstGE_cons_lt (by linarith),
        firstGE_cons_lt (by linarith),
        firstGE_cons_ge (by linarith)]
      rfl
    · norm_num at h1 h2
      rw [firstGE_cons_lt (by linarith),
        firstGE_cons_lt (by linarith),
        firstGE_cons_lt (by linarith),
        firstGE_cons_lt (by linarith),
        firstGE_cons_lt (by linarith),
        firstGE_cons_lt (by linarith),
        firstGE_cons_ge (by linarith)]
      rfl
    · norm_num at h1 h2
      rw [firstGE_cons_lt (by linarith),
        firstGE_cons_lt (by linarith),
        firstGE_cons_lt (by linarith),
        firstGE_cons_lt (by linarith),
        firstGE_cons_lt (by linarith),
        firstGE_cons_ge (by linarith)]
      rfl
    · norm_num at h1 h2
      rw [firstGE_cons_lt (by linarith),
        firstGE_cons_lt (by linarith),
        firstGE_cons_lt (by linarith),
        firstGE_cons_lt (by linarith),
        firstGE_cons_ge (by linarith)]
      rfl
    · norm_num at h1 h2
      rw [firstGE_cons_lt (by linarith),
        firstGE_cons_lt (by linarith),
        firstGE_cons_lt (by linarith),
        firstGE_cons_ge (by linarith)]
      rfl
    · norm_num at h1 h2
      rw [firstGE_cons_lt (by linarith),
        firstGE_cons_lt (by linarith),
        firstGE_cons_ge (by linarith)]
      rfl
    · norm_num at h1 h2
      rw [firstGE_cons_lt (by linarith),
        firstGE_cons_ge (by linarith)]
      rfl
  · intro h
    unfold codeDirection
    rw [dirRev]
    exact firstGE_cons_ge h

/-- Witness for C5's amended theorem: azimuth 180° lies in bucket 8 ("S"). -/
theorem c5_witness : codeDirection 180 = some "S" := by
  have h := (c5_amended 180).1 8 (by norm_num) (by norm_num) (by norm_num)
  exact h


end IssSpotter
